import Mathlib

/-!
Shallow embedding of the periodic-lights integration.

Conventions of the embedding:
* Python floats are modelled as real numbers (`ℝ`).
* Instants (`datetime`) are modelled as real-valued seconds on a single
  timeline; `(a - b).total_seconds()` becomes `a - b`.  Local-time
  conversion (`dt_util.as_local`) preserves differences between instants,
  so it is dropped.
* Python `round` (banker's rounding, ties to even) is modelled by
  `pythonRound` below; `int(round(x))` is `pythonRound x`.
* Dictionaries with `.get(key, default)` become total functions returning
  `Option`-valued fields resolved with `Option.getD`.
-/

open Classical

noncomputable section

/-- Python `round(x)`: round half to even (banker's rounding). -/
def pythonRound (x : ℝ) : ℤ :=
  if x - ⌊x⌋ = 1/2 then
    (if ⌊x⌋ % 2 = 0 then ⌊x⌋ else ⌊x⌋ + 1)
  else
    round x

namespace SolarCurve

/-- The `SolarCycle` dataclass from solar_curve.py: four instants. -/
structure SolarCycle where
  sunrise : ℝ
  sunset : ℝ
  midday : ℝ
  night_midpoint : ℝ

/-- The shared cycle construction of `_fallback_cycle` and `_get_solar_cycle`
(solar_curve.py lines 32-34 and 82-87): midday is the midpoint of sunrise and
sunset, night_midpoint the midpoint of sunset and the next sunrise
(sunrise + one day). -/
def mk_solar_cycle (sunrise sunset : ℝ) : SolarCycle :=
  let midday := sunrise + (sunset - sunrise) / 2
  let next_sunrise := sunrise + 86400
  let night_midpoint := sunset + (next_sunrise - sunset) / 2
  ⟨sunrise, sunset, midday, night_midpoint⟩

/-- Function `_fallback_cycle` from solar_curve.py: sunrise at local midnight + 6h,
sunset at local midnight + 18h. -/
def fallback_cycle (local_midnight : ℝ) : SolarCycle :=
  mk_solar_cycle (local_midnight + 6 * 3600) (local_midnight + 18 * 3600)

/-- Function `daily_cosine_pct` from solar_curve.py (lines 112-132), with the solar
cycle (the result of `_get_solar_cycle(hass)`) passed explicitly.  The source
also returns the cycle alongside the percentage; the caller discards it. -/
def daily_cosine_pct (cycle : SolarCycle) (now_local : ℝ) : ℝ :=
  let seconds_since_midday := now_local - cycle.midday
  let phase := seconds_since_midday / (24 * 3600) * 2 * Real.pi
  let cos_val := Real.cos phase
  let pct := 0.5 * (1 + cos_val)
  if pct < 0 then 0 else if pct > 1 then 1 else pct

/-- Function `map_pct_to_range` from solar_curve.py (lines 135-138). -/
def map_pct_to_range (pct vmin vmax : ℝ) : ℝ :=
  let pct_clamped := if pct < 0 then 0 else if pct > 1 then 1 else pct
  vmin + (vmax - vmin) * pct_clamped

/-- Function `_clamp01` from solar_curve.py (lines 144-150). -/
def clamp01 (x : ℝ) : ℝ :=
  if x ≤ 0 then 0 else if 1 ≤ x then 1 else x

/-- Function `apply_shaping` from solar_curve.py (lines 153-199), the orchestration
path.  `x ^ gamma` is `Real.rpow`, matching Python `**` on nonnegative
floats. -/
def apply_shaping (pct_raw : ℝ) (func : String) (shaping : ℝ) : ℝ :=
  let x := clamp01 pct_raw
  let gamma := max shaping 0.01
  let f := (if func = "" then "gamma_sine" else func).toLower
  let base := x
  if f = "gamma_sine" then
    clamp01 (base ^ gamma)
  else if f = "time_warped_sine" then
    let t := x
    let t_warp := clamp01 (t ^ gamma)
    clamp01 (Real.sin (Real.pi * t_warp))
  else if f = "triangular" then
    let tri := clamp01 (1 - |2 * x - 1|)
    if gamma ≠ 1 then clamp01 (tri ^ gamma) else tri
  else if f = "eased_triangular" then
    let tri := clamp01 (1 - |2 * x - 1|)
    let eased := tri * tri * (3 - 2 * tri)
    if gamma ≠ 1 then clamp01 (eased ^ gamma) else eased
  else
    base

end SolarCurve

namespace CurveMath

/-- Function `clamp01` from tests/curve_math.py (lines 14-19). -/
def clamp01 (x : ℝ) : ℝ :=
  if x ≤ 0 then 0 else if 1 ≤ x then 1 else x

/-- Function `apply_shaping` from tests/curve_math.py (lines 30-66), the offline
utility.  Note the divergences from the orchestration path: `gamma_sine`
and the fallback re-derive a half-sine, `triangular` never applies gamma,
and `eased_triangular` guards the gamma sharpening with a 1e-6 tolerance. -/
def apply_shaping (phase : ℝ) (func : String) (shaping : ℝ) : ℝ :=
  let t := clamp01 phase
  let gamma := max shaping 0.01
  let f := (if func = "" then "gamma_sine" else func).toLower
  if f = "gamma_sine" then
    let base := clamp01 (Real.sin (Real.pi * t))
    clamp01 (base ^ gamma)
  else if f = "time_warped_sine" then
    let t_warp := t ^ gamma
    clamp01 (Real.sin (Real.pi * t_warp))
  else
    let tri := clamp01 (1 - |2 * t - 1|)
    if f = "triangular" then
      tri
    else if f = "eased_triangular" then
      let eased := tri * tri * (3 - 2 * tri)
      if |gamma - 1| > 1/1000000 then clamp01 (eased ^ gamma) else eased
    else
      clamp01 (Real.sin (Real.pi * t))

end CurveMath

namespace LightControl

/-- One per-light entry of `per_light_settings` (light_control.py line 105,
`entry_data[ATTR_LIGHT_SETTINGS]`): each field optionally overrides the
Setup's global value. -/
structure LightOverrides where
  min_brightness : Option ℝ
  max_brightness : Option ℝ
  min_kelvin : Option ℝ
  max_kelvin : Option ℝ

/-- The per-entry mutable state dictionary seeded in `__init__.py`
(`entry_state`) and read by `async_update_lights_for_entry`.
`light_settings` is total: a light id absent from the dictionary maps to
the all-`none` override record (`per_light_settings.get(light_id, {})`). -/
structure EntryData where
  enabled : Bool
  lights : List String
  update_interval : ℝ
  last_light_update : Option ℝ
  brightness_enabled : Bool
  color_temp_enabled : Bool
  bedtime : Bool
  light_settings : String → LightOverrides
  min_brightness : ℝ
  max_brightness : ℝ
  min_kelvin : ℝ
  max_kelvin : ℝ
  transition : ℝ
  shaping_param : ℝ
  shaping_function : String

/-- The `service_data` dictionary built per light (light_control.py lines
116-149): the `entity_id` key plus up to three optional keys. -/
structure ServiceData where
  entity_id : String
  brightness_pct : Option ℝ
  color_temp : Option ℤ
  transition : Option ℝ

/-- Python `len(service_data)`: one for `entity_id` plus one per present key. -/
def ServiceData.len (sd : ServiceData) : ℕ :=
  1 + (if sd.brightness_pct.isSome then 1 else 0)
    + (if sd.color_temp.isSome then 1 else 0)
    + (if sd.transition.isSome then 1 else 0)

/-- Lookup `this_light.get(CONF_MIN_BRIGHTNESS, global_min_brightness)`
(light_control.py lines 107-109). -/
def effective_min_brightness (s : EntryData) (light_id : String) : ℝ :=
  ((s.light_settings light_id).min_brightness).getD s.min_brightness

/-- Lookup `this_light.get(CONF_MAX_BRIGHTNESS, global_max_brightness)`
(light_control.py lines 110-112). -/
def effective_max_brightness (s : EntryData) (light_id : String) : ℝ :=
  ((s.light_settings light_id).max_brightness).getD s.max_brightness

/-- Lookup `this_light.get(CONF_MIN_KELVIN, global_min_kelvin)`
(light_control.py line 113). -/
def effective_min_kelvin (s : EntryData) (light_id : String) : ℝ :=
  ((s.light_settings light_id).min_kelvin).getD s.min_kelvin

/-- Lookup `this_light.get(CONF_MAX_KELVIN, global_max_kelvin)`
(light_control.py line 114). -/
def effective_max_kelvin (s : EntryData) (light_id : String) : ℝ :=
  ((s.light_settings light_id).max_kelvin).getD s.max_kelvin

/-- The `service_data` built for one light (light_control.py lines 105-149):
brightness handling, color-temperature handling, transition. -/
def light_service_data (s : EntryData) (pct_shaped : ℝ) (light_id : String) :
    ServiceData :=
  let min_brightness := effective_min_brightness s light_id
  let max_brightness := effective_max_brightness s light_id
  let min_kelvin := effective_min_kelvin s light_id
  let max_kelvin := effective_max_kelvin s light_id
  let brightness_entry : Option ℝ :=
    if s.brightness_enabled then
      if s.bedtime then
        some ((max 0 (min 100 (pythonRound min_brightness)) : ℤ) : ℝ)
      else
        some (max 0 (min 100
          (SolarCurve.map_pct_to_range pct_shaped min_brightness max_brightness)))
    else none
  let kelvin : ℝ :=
    if s.bedtime then min_kelvin
    else SolarCurve.map_pct_to_range pct_shaped min_kelvin max_kelvin
  let color_temp_entry : Option ℤ :=
    if s.color_temp_enabled then
      (if kelvin > 0 then some (pythonRound (1000000 / kelvin)) else none)
    else none
  let transition_entry : Option ℝ :=
    if s.transition > 0 then some s.transition else none
  ⟨light_id, brightness_entry, color_temp_entry, transition_entry⟩

/-- The body of the per-light loop (light_control.py lines 99-160): skip a
light that is not reporting "on", build its `service_data`, and skip it when
the data carries nothing beyond `entity_id`; otherwise the command that is
dispatched to `light.turn_on`. -/
def command_for_light (states : String → Option String) (s : EntryData)
    (pct_shaped : ℝ) (light_id : String) : Option ServiceData :=
  match states light_id with
  | none => none
  | some st =>
    if st ≠ "on" then none
    else
      let sd := light_service_data s pct_shaped light_id
      if sd.len ≤ 1 then none else some sd

/-- The throttle test (light_control.py lines 73-77): a last-update
timestamp is recorded and less than `update_interval` seconds old. -/
def is_throttled (s : EntryData) (now : ℝ) : Prop :=
  match s.last_light_update with
  | some last_update => now - last_update < s.update_interval
  | none => False

/-- The external collaborators `async_update_lights_for_entry` reads: the
state registry (`hass.states.get`, reported power state per entity id) and
the solar cycle resolved by `_get_solar_cycle(hass)`. -/
structure Hass where
  states : String → Option String
  cycle : SolarCurve.SolarCycle

/-- The observable outcome of one orchestration pass: whether the sensor
dispatcher signal was sent, the `light.turn_on` calls made in order, and the
entry state on return. -/
structure UpdateResult where
  sensors_notified : Bool
  commands : List ServiceData
  entry : EntryData

/-- Function `async_update_lights_for_entry` (light_control.py lines 37-162) for an
entry that is registered in `hass.data` (the missing-entry guards of lines
44-55 concern an unregistered entry id and are outside this model). -/
def async_update_lights_for_entry (hass : Hass) (entry_data : EntryData)
    (now : ℝ) (force : Bool) : UpdateResult :=
  let notified := force
  if entry_data.enabled = false then ⟨notified, [], entry_data⟩
  else if entry_data.lights = [] then ⟨notified, [], entry_data⟩
  else if force = false ∧ is_throttled entry_data now then
    ⟨notified, [], entry_data⟩
  else
    let pct_raw := SolarCurve.daily_cosine_pct hass.cycle now
    let pct_shaped :=
      SolarCurve.apply_shaping pct_raw entry_data.shaping_function
        entry_data.shaping_param
    let commands :=
      entry_data.lights.filterMap
        (command_for_light hass.states entry_data pct_shaped)
    ⟨notified, commands, { entry_data with last_light_update := some now }⟩

end LightControl

namespace BedtimeSwitch

/-- The observable outcome of a switch handler: the entry state it leaves
behind and the `force` flag of each `async_update_lights_for_entry` task it
creates. -/
structure TurnResult where
  entry : LightControl.EntryData
  forced_updates : List Bool

/-- Handler `PeriodicLightsBedtimeSwitch.async_turn_on` (switch.py lines 236-245):
set the bedtime flag, then create an `async_update_lights_for_entry` task
with `force=True`. -/
def turn_on (s : LightControl.EntryData) : TurnResult :=
  ⟨{ s with bedtime := true }, [true]⟩

/-- Handler `PeriodicLightsBedtimeSwitch.async_turn_off` (switch.py lines 247-257):
clear the bedtime flag, then create an `async_update_lights_for_entry` task
with `force=True`. -/
def turn_off (s : LightControl.EntryData) : TurnResult :=
  ⟨{ s with bedtime := false }, [true]⟩

end BedtimeSwitch

/-! Concrete fixtures used by the counterexamples and witnesses. -/

/-- A concrete light entity id. -/
def lightA : String := "light.a"

/-- The reported power state "on". -/
def stateOn : String := "on"

/-- The default shaping function id. -/
def funcGammaSine : String := "gamma_sine"

/-- A per-light settings entry with no overrides. -/
def noOverrides : LightControl.LightOverrides := ⟨none, none, none, none⟩

/-- A concrete entry state: one configured light, defaults as seeded by
`__init__.py` (master on, both features on, bedtime off, no overrides,
brightness range 0-100, kelvin range 2500-5000, interval 60 s,
transition 0 s, gamma-sine shaping with parameter 1). -/
def baseEntry : LightControl.EntryData where
  enabled := true
  lights := [lightA]
  update_interval := 60
  last_light_update := none
  brightness_enabled := true
  color_temp_enabled := true
  bedtime := false
  light_settings := fun _ => noOverrides
  min_brightness := 0
  max_brightness := 100
  min_kelvin := 2500
  max_kelvin := 5000
  transition := 0
  shaping_param := 1
  shaping_function := funcGammaSine

/-- A concrete collaborator state: the configured light reports "on", and
the solar cycle is the fallback 06:00/18:00 day (so midday is at second
43200 and the night midpoint at second 86400). -/
def baseHass : LightControl.Hass where
  states := fun light_id => if light_id = lightA then some stateOn else none
  cycle := SolarCurve.mk_solar_cycle 21600 64800

/-- C1 fixture: brightness range 0-25 so the curve midpoint maps to a
non-integer percent; color temperature updates off. -/
def entryC1 : LightControl.EntryData :=
  { baseEntry with
    max_brightness := 25
    color_temp_enabled := false }

/-- C2 fixture: both feature switches off, transition 2 s. -/
def entryC2 : LightControl.EntryData :=
  { baseEntry with
    brightness_enabled := false
    color_temp_enabled := false
    transition := 2 }

/-- C2 witness fixture: both feature switches off, transition 0 s. -/
def entryC2zero : LightControl.EntryData :=
  { baseEntry with
    brightness_enabled := false
    color_temp_enabled := false }

/-- C4 fixture: a last update recorded at second 0. -/
def entryC4 : LightControl.EntryData :=
  { baseEntry with last_light_update := some 0 }

/-- C7 fixture: bedtime on, global minimum brightness 10.25 %. -/
def entryC7 : LightControl.EntryData :=
  { baseEntry with
    bedtime := true
    min_brightness := 10.25 }

/-! Helper lemmas. -/

theorem SolarCurve.clamp01_nonneg (x : ℝ) : 0 ≤ SolarCurve.clamp01 x := by
  unfold SolarCurve.clamp01
  split_ifs <;> linarith

theorem SolarCurve.clamp01_le_one (x : ℝ) : SolarCurve.clamp01 x ≤ 1 := by
  unfold SolarCurve.clamp01
  split_ifs <;> linarith

theorem smoothstep_mem_unit (t : ℝ) (h0 : 0 ≤ t) (h1 : t ≤ 1) :
    0 ≤ t * t * (3 - 2 * t) ∧ t * t * (3 - 2 * t) ≤ 1 := by
  constructor
  · nlinarith
  · nlinarith [sq_nonneg (1 - t), mul_nonneg (mul_nonneg h0 h0) h0]

theorem toLower_gamma_sine : String.toLower "gamma_sine" = "gamma_sine" := by
  rw [String.toLower, String.map_eq]; decide

theorem toLower_triangular : String.toLower "triangular" = "triangular" := by
  rw [String.toLower, String.map_eq]; decide

theorem SolarCurve.daily_cosine_pct_closed_form
    (cycle : SolarCurve.SolarCycle) (now_local : ℝ) :
    SolarCurve.daily_cosine_pct cycle now_local =
      max 0 (min 1 (0.5 * (1 + Real.cos
        ((now_local - cycle.midday) / 86400 * (2 * Real.pi))))) := by
  simp only [SolarCurve.daily_cosine_pct]
  have harg : (now_local - cycle.midday) / (24 * 3600) * 2 * Real.pi
      = (now_local - cycle.midday) / 86400 * (2 * Real.pi) := by ring
  rw [harg]
  have hc1 : Real.cos ((now_local - cycle.midday) / 86400 * (2 * Real.pi)) ≤ 1 :=
    Real.cos_le_one _
  have hc2 : -1 ≤ Real.cos ((now_local - cycle.midday) / 86400 * (2 * Real.pi)) :=
    Real.neg_one_le_cos _
  split_ifs with h1 h2
  · linarith
  · linarith
  · rw [min_eq_right (by linarith), max_eq_right (by linarith)]

/-! Claim theorems. -/

/-- C5: the raw phase value equals `0.5 * (1 + cos theta)` with
`theta = seconds_since_midday / 86400 * 2π`, clamped to [0,1]; it is exactly
1.0 when the reference instant equals `cycle.midday`, and exactly 0.0 when
it equals `cycle.night_midpoint` (for cycles built by the provider's
construction, which places the night midpoint exactly half a day after
midday). -/
theorem C5_raw_phase_cosine_and_anchors :
    (∀ (cycle : SolarCurve.SolarCycle) (now_local : ℝ),
      SolarCurve.daily_cosine_pct cycle now_local =
        max 0 (min 1 (0.5 * (1 + Real.cos
          ((now_local - cycle.midday) / 86400 * (2 * Real.pi)))))) ∧
    (∀ cycle : SolarCurve.SolarCycle,
      SolarCurve.daily_cosine_pct cycle cycle.midday = 1) ∧
    (∀ sunrise sunset : ℝ,
      SolarCurve.daily_cosine_pct (SolarCurve.mk_solar_cycle sunrise sunset)
        (SolarCurve.mk_solar_cycle sunrise sunset).night_midpoint = 0) := by
  refine ⟨SolarCurve.daily_cosine_pct_closed_form, ?_, ?_⟩
  · intro cycle
    rw [SolarCurve.daily_cosine_pct_closed_form]
    norm_num [Real.cos_zero]
  · intro sunrise sunset
    rw [SolarCurve.daily_cosine_pct_closed_form]
    have hd : (SolarCurve.mk_solar_cycle sunrise sunset).night_midpoint -
        (SolarCurve.mk_solar_cycle sunrise sunset).midday = 43200 := by
      simp only [SolarCurve.mk_solar_cycle]
      ring
    rw [hd]
    have harg : (43200 : ℝ) / 86400 * (2 * Real.pi) = Real.pi := by
      ring_nf
    rw [harg, Real.cos_pi]
    norm_num

/-- C6: for every raw value, every shaping parameter and every shaping
function selector (the four named functions included), the shaped output of
the orchestration path lies in [0,1].  This is stronger than the claim,
which restricts raw values to [0,1] and gamma to [0.01,10]. -/
theorem C6_shaped_output_in_unit_interval :
    ∀ (pct_raw : ℝ) (func : String) (shaping : ℝ),
      0 ≤ SolarCurve.apply_shaping pct_raw func shaping ∧
      SolarCurve.apply_shaping pct_raw func shaping ≤ 1 := by
  intro pct_raw func shaping
  simp only [SolarCurve.apply_shaping]
  split_ifs
  all_goals
    first
      | exact ⟨SolarCurve.clamp01_nonneg _, SolarCurve.clamp01_le_one _⟩
      | exact smoothstep_mem_unit _ (SolarCurve.clamp01_nonneg _)
          (SolarCurve.clamp01_le_one _)

/-- C9: the orchestration-path `apply_shaping` (solar_curve.py) and the
offline-utility `apply_shaping` (tests/curve_math.py) are different
functions: at value 1/4, function "triangular" and gamma 2, the former
sharpens the triangular bump to 1/4 while the latter ignores gamma and
returns 1/2. -/
theorem C9_two_shaping_implementations_differ :
    SolarCurve.apply_shaping (1/4) "triangular" 2 = 1/4 ∧
    CurveMath.apply_shaping (1/4) "triangular" 2 = 1/2 ∧
    SolarCurve.apply_shaping (1/4) "triangular" 2 ≠
      CurveMath.apply_shaping (1/4) "triangular" 2 := by
  have hne0 : ¬ (("triangular":String) = "") := by decide
  have hne1 : ¬ (String.toLower "triangular" = "gamma_sine") := by
    rw [toLower_triangular]; decide
  have hne2 : ¬ (String.toLower "triangular" = "time_warped_sine") := by
    rw [toLower_triangular]; decide
  have habs2 : |(1/2:ℝ)| = 1/2 := abs_of_nonneg (by norm_num)
  have habs : |2 * (1/4 : ℝ) - 1| = 1/2 := by
    rw [abs_of_nonpos (by norm_num)]
    norm_num
  have hr : ((1/2 : ℝ)) ^ ((2:ℝ)) = 1/4 := by
    rw [show ((2:ℝ)) = ((2:ℕ):ℝ) by norm_num, Real.rpow_natCast]
    norm_num
  have h1 : SolarCurve.apply_shaping (1/4) "triangular" 2 = 1/4 := by
    rw [SolarCurve.apply_shaping]
    norm_num [eq_false hne0, eq_false hne1, eq_false hne2,
      eq_true toLower_triangular, SolarCurve.clamp01, habs, habs2, hr]
  have h2 : CurveMath.apply_shaping (1/4) "triangular" 2 = 1/2 := by
    rw [CurveMath.apply_shaping]
    norm_num [eq_false hne0, eq_false hne1, eq_false hne2,
      eq_true toLower_triangular, CurveMath.clamp01, habs, habs2]
  refine ⟨h1, h2, ?_⟩
  rw [h1, h2]
  norm_num

/-- C10: an orchestration pass never mutates any Setup field other than
`last_update_timestamp`: every configuration and runtime field of the entry
state is unchanged on return, for every force flag and every entry state. -/
theorem C10_update_mutates_only_timestamp :
    ∀ (hass : LightControl.Hass) (s : LightControl.EntryData) (now : ℝ)
      (force : Bool),
      ((LightControl.async_update_lights_for_entry hass s now force).entry.enabled
          = s.enabled) ∧
      ((LightControl.async_update_lights_for_entry hass s now force).entry.lights
          = s.lights) ∧
      ((LightControl.async_update_lights_for_entry hass s now
          force).entry.update_interval = s.update_interval) ∧
      ((LightControl.async_update_lights_for_entry hass s now
          force).entry.brightness_enabled = s.brightness_enabled) ∧
      ((LightControl.async_update_lights_for_entry hass s now
          force).entry.color_temp_enabled = s.color_temp_enabled) ∧
      ((LightControl.async_update_lights_for_entry hass s now force).entry.bedtime
          = s.bedtime) ∧
      ((LightControl.async_update_lights_for_entry hass s now
          force).entry.light_settings = s.light_settings) ∧
      ((LightControl.async_update_lights_for_entry hass s now
          force).entry.min_brightness = s.min_brightness) ∧
      ((LightControl.async_update_lights_for_entry hass s now
          force).entry.max_brightness = s.max_brightness) ∧
      ((LightControl.async_update_lights_for_entry hass s now
          force).entry.min_kelvin = s.min_kelvin) ∧
      ((LightControl.async_update_lights_for_entry hass s now
          force).entry.max_kelvin = s.max_kelvin) ∧
      ((LightControl.async_update_lights_for_entry hass s now
          force).entry.transition = s.transition) ∧
      ((LightControl.async_update_lights_for_entry hass s now
          force).entry.shaping_param = s.shaping_param) ∧
      ((LightControl.async_update_lights_for_entry hass s now
          force).entry.shaping_function = s.shaping_function) := by
  intro hass s now force
  unfold LightControl.async_update_lights_for_entry
  split_ifs <;> simp

/-- C3 counterexample: turning the bedtime switch on does, by itself,
immediately create an `async_update_lights_for_entry` task with
`force=True` (switch.py lines 243-245), refuting the claim that turning it
on invokes no orchestration pass. -/
theorem C3_bedtime_on_forces_update_counterexample :
    (BedtimeSwitch.turn_on baseEntry).forced_updates
        = [true] ∧
    (BedtimeSwitch.turn_on baseEntry).forced_updates
        ≠ [] := by
  constructor
  · rfl
  · simp [BedtimeSwitch.turn_on]

/-- The `entity_id` key of a built `service_data` is the processed light. -/
theorem LightControl.light_service_data_entity_id (s : LightControl.EntryData)
    (pct_shaped : ℝ) (light_id : String) :
    (LightControl.light_service_data s pct_shaped light_id).entity_id
      = light_id := rfl

/-- Inversion of the per-light loop body: a dispatched command comes from a
light reporting "on" and equals its built `service_data`. -/
theorem LightControl.command_for_light_inv
    (states : String → Option String) (s : LightControl.EntryData)
    (pct_shaped : ℝ) (light_id : String) (sd : LightControl.ServiceData)
    (h : LightControl.command_for_light states s pct_shaped light_id
      = some sd) :
    states light_id = some stateOn ∧
      sd = LightControl.light_service_data s pct_shaped light_id := by
  cases hstate : states light_id with
  | none =>
    rw [LightControl.command_for_light, hstate] at h
    cases h
  | some st =>
    rw [LightControl.command_for_light, hstate] at h
    simp only at h
    split_ifs at h with h1 h2
    refine ⟨?_, (Option.some.inj h).symm⟩
    rw [not_not.mp h1]
    rfl

/-- Every command of a pass comes from a configured light reporting "on"
and is its built `service_data` for the shared shaped value. -/
theorem LightControl.command_mem_inv
    (hass : LightControl.Hass) (s : LightControl.EntryData) (now : ℝ)
    (force : Bool) (sd : LightControl.ServiceData)
    (hmem : sd ∈ (LightControl.async_update_lights_for_entry hass s now
      force).commands) :
    ∃ light_id, light_id ∈ s.lights ∧
      hass.states light_id = some stateOn ∧
      sd = LightControl.light_service_data s
        (SolarCurve.apply_shaping (SolarCurve.daily_cosine_pct hass.cycle now)
          s.shaping_function s.shaping_param) light_id := by
  unfold LightControl.async_update_lights_for_entry at hmem
  split_ifs at hmem
  · simp at hmem
  · simp at hmem
  · simp at hmem
  · simp only [List.mem_filterMap] at hmem
    obtain ⟨light_id, hlid, hcmd⟩ := hmem
    obtain ⟨hon, hsd⟩ := LightControl.command_for_light_inv _ _ _ _ _ hcmd
    exact ⟨light_id, hlid, hon, hsd⟩

/-- C3 amended: turning the bedtime switch on immediately invokes an
orchestration pass with `force=true` (just as turning it off does); turning
it on sets the bedtime flag and turning it off clears it. -/
theorem C3_bedtime_toggle_always_forces_update :
    ∀ s : LightControl.EntryData,
      (BedtimeSwitch.turn_on s).forced_updates = [true] ∧
      (BedtimeSwitch.turn_on s).entry.bedtime = true ∧
      (BedtimeSwitch.turn_off s).forced_updates = [true] ∧
      (BedtimeSwitch.turn_off s).entry.bedtime = false := by
  intro s
  exact ⟨rfl, rfl, rfl, rfl⟩

/-- Evaluation of Python `round` at 10.25 (rounds down to 10). -/
theorem pythonRound_ten_quarter : pythonRound (10.25:ℝ) = 10 := by
  have hfl : ⌊(10.25:ℝ)⌋ = 10 := by norm_num
  unfold pythonRound
  rw [hfl]
  norm_num [round_eq]

/-- Evaluation of Python `round` at the integer 400. -/
theorem pythonRound_four_hundred : pythonRound (400:ℝ) = 400 := by
  have hfl : ⌊(400:ℝ)⌋ = 400 := by norm_num
  unfold pythonRound
  rw [hfl]
  norm_num [round_eq]

/-- Evaluation of Python `round` at the tie 12.5 (banker's rounding: 12). -/
theorem pythonRound_twelve_half : pythonRound (12.5:ℝ) = 12 := by
  have hfl : ⌊(12.5:ℝ)⌋ = 12 := by norm_num
  unfold pythonRound
  rw [hfl]
  norm_num

/-- Concrete evaluation shared by the C1 counterexample, the C1 witness and
the C8 witness: at 18:00 (six hours past midday) the raw curve value is 0.5,
gamma-sine shaping with parameter 1 keeps it at 0.5, and the brightness
range 0-25 maps it to the non-integer percent 12.5. -/
theorem updateC1_commands :
    (LightControl.async_update_lights_for_entry baseHass entryC1 64800
      false).commands = [⟨lightA, some 12.5, none, none⟩] := by
  have hpct : SolarCurve.daily_cosine_pct (SolarCurve.mk_solar_cycle 21600 64800)
      64800 = 0.5 := by
    rw [SolarCurve.daily_cosine_pct]
    have h : (64800 - (SolarCurve.mk_solar_cycle 21600 64800).midday) /
        (24 * 3600) * 2 * Real.pi = Real.pi / 2 := by
      norm_num [SolarCurve.mk_solar_cycle]
      ring_nf
    rw [h, Real.cos_pi_div_two]
    norm_num
  have hshape : SolarCurve.apply_shaping (1/2) funcGammaSine 1 = 1/2 := by
    have hlow : String.toLower "gamma_sine" = "gamma_sine" := toLower_gamma_sine
    rw [SolarCurve.apply_shaping]
    norm_num [funcGammaSine, hlow, SolarCurve.clamp01]
  rw [LightControl.async_update_lights_for_entry]
  norm_num [entryC1, baseEntry, baseHass, LightControl.is_throttled, hpct,
    hshape, LightControl.command_for_light, LightControl.light_service_data,
    LightControl.effective_min_brightness, LightControl.effective_max_brightness,
    LightControl.effective_min_kelvin, LightControl.effective_max_kelvin,
    noOverrides, LightControl.ServiceData.len, SolarCurve.map_pct_to_range,
    stateOn, List.filterMap_cons, List.filterMap_nil]

/-- Concrete evaluation shared by the C7 counterexample and the C7 witness:
with bedtime on and minimum brightness 10.25 the command carries brightness
10 (rounded, clamped) and the mired value 400 derived from the minimum
kelvin 2500. -/
theorem updateC7_commands :
    (LightControl.async_update_lights_for_entry baseHass entryC7 0
      true).commands = [⟨lightA, some 10, some 400, none⟩] := by
  have h41 : pythonRound ((41:ℝ)/4) = 10 := by
    rw [show ((41:ℝ)/4) = 10.25 by norm_num]
    exact pythonRound_ten_quarter
  rw [LightControl.async_update_lights_for_entry]
  norm_num [h41, min_def, max_def, entryC7, baseEntry, baseHass,
    LightControl.is_throttled,
    LightControl.command_for_light, LightControl.light_service_data,
    LightControl.effective_min_brightness, LightControl.effective_max_brightness,
    LightControl.effective_min_kelvin, LightControl.effective_max_kelvin,
    noOverrides, LightControl.ServiceData.len, pythonRound_ten_quarter,
    pythonRound_four_hundred, stateOn, List.filterMap_cons, List.filterMap_nil]

/-- C4: with master enabled and a non-empty light list, a non-forced trigger
arriving inside the throttle window (a last-update timestamp is set and
now - last < update_interval) issues no actuator command and returns the
entry unchanged (in particular last_update_timestamp is unchanged), while a
forced trigger under the same hypotheses proceeds past the throttle check
and stamps the new time. -/
theorem C4_throttle_blocks_only_unforced
    (hass : LightControl.Hass) (s : LightControl.EntryData) (now t : ℝ)
    (hen : s.enabled = true) (hlights : s.lights ≠ [])
    (hlast : s.last_light_update = some t)
    (hwin : now - t < s.update_interval) :
    ((LightControl.async_update_lights_for_entry hass s now false).commands
        = [] ∧
     (LightControl.async_update_lights_for_entry hass s now false).entry
        = s) ∧
    (LightControl.async_update_lights_for_entry hass s now
        true).entry.last_light_update = some now := by
  have hthr : LightControl.is_throttled s now := by
    simp only [LightControl.is_throttled, hlast]
    exact hwin
  refine ⟨⟨?_, ?_⟩, ?_⟩ <;>
    simp [LightControl.async_update_lights_for_entry, hen, hlights, hthr]

/-- C4 witness: the throttle theorem at the concrete fixture — interval 60 s,
last update at second 0, trigger at second 30. -/
theorem C4_throttle_blocks_only_unforced_witness :
    ((LightControl.async_update_lights_for_entry baseHass entryC4 30
        false).commands = [] ∧
     (LightControl.async_update_lights_for_entry baseHass entryC4 30
        false).entry = entryC4) ∧
    (LightControl.async_update_lights_for_entry baseHass entryC4 30
        true).entry.last_light_update = some 30 :=
  C4_throttle_blocks_only_unforced baseHass entryC4 30 0 rfl
    (by simp [entryC4, baseEntry]) rfl (by norm_num [entryC4, baseEntry])

/-- C8: every command dispatched by an orchestration pass — forced or not,
for every entry state — addresses a light whose reported power state is
"on"; hence a light reporting off, unavailable or unknown never receives a
command. -/
theorem C8_off_light_never_commanded
    (hass : LightControl.Hass) (s : LightControl.EntryData) (now : ℝ)
    (force : Bool) (sd : LightControl.ServiceData)
    (hmem : sd ∈ (LightControl.async_update_lights_for_entry hass s now
      force).commands) :
    hass.states sd.entity_id = some stateOn := by
  obtain ⟨light_id, -, hon, rfl⟩ :=
    LightControl.command_mem_inv hass s now force sd hmem
  rw [LightControl.light_service_data_entity_id]
  exact hon

/-- C8 witness: the dispatched command of the concrete C1 fixture addresses
a light reporting "on". -/
theorem C8_off_light_never_commanded_witness :
    baseHass.states
      ((⟨lightA, some 12.5, none, none⟩ :
        LightControl.ServiceData)).entity_id = some stateOn :=
  C8_off_light_never_commanded baseHass entryC1 64800 false
    ⟨lightA, some 12.5, none, none⟩
    (by rw [updateC1_commands]; exact List.mem_singleton.mpr rfl)

/-- C2 counterexample: with both feature flags off but a positive transition
setting (2 s), the pass still dispatches a command for the "on" light — the
`len(service_data) <= 1` skip check counts the transition key, so the claim
"no command is dispatched, for every value of the transition setting" fails. -/
theorem C2_transition_only_command_counterexample :
    entryC2.brightness_enabled = false ∧
    entryC2.color_temp_enabled = false ∧
    (LightControl.async_update_lights_for_entry baseHass entryC2 0
      false).commands = [⟨lightA, none, none, some 2⟩] := by
  refine ⟨rfl, rfl, ?_⟩
  rw [LightControl.async_update_lights_for_entry]
  norm_num [entryC2, baseEntry, baseHass, LightControl.is_throttled,
    LightControl.command_for_light, LightControl.light_service_data,
    LightControl.effective_min_brightness, LightControl.effective_max_brightness,
    LightControl.effective_min_kelvin, LightControl.effective_max_kelvin,
    noOverrides, LightControl.ServiceData.len, stateOn,
    List.filterMap_cons, List.filterMap_nil]

/-- C2 amended: if both feature flags are off and the transition setting is
not positive — so the command really carries no attribute beyond the light
identifier — no command is dispatched for any light; with a positive
transition the command carrying only the transition is still sent. -/
theorem C2_flags_off_no_transition_no_commands
    (hass : LightControl.Hass) (s : LightControl.EntryData) (now : ℝ)
    (force : Bool) (hb : s.brightness_enabled = false)
    (hc : s.color_temp_enabled = false) (ht : s.transition ≤ 0) :
    (LightControl.async_update_lights_for_entry hass s now force).commands
      = [] := by
  unfold LightControl.async_update_lights_for_entry
  split_ifs <;> try rfl
  simp only [List.filterMap_eq_nil_iff]
  intro light_id hmem
  unfold LightControl.command_for_light
  cases hstate : hass.states light_id with
  | none => rfl
  | some st =>
    simp only
    split_ifs with h1 h2
    · rfl
    · rfl
    · exfalso
      apply h2
      have hsd : LightControl.light_service_data s
          (SolarCurve.apply_shaping (SolarCurve.daily_cosine_pct hass.cycle now)
            s.shaping_function s.shaping_param) light_id
          = ⟨light_id, none, none, none⟩ := by
        unfold LightControl.light_service_data
        rw [hb, hc]
        simp [not_lt.mpr ht]
      rw [hsd]
      simp [LightControl.ServiceData.len]

/-- C2 witness: the amended theorem at the concrete fixture with both flags
off and transition 0 — no command is dispatched. -/
theorem C2_flags_off_no_transition_no_commands_witness :
    (LightControl.async_update_lights_for_entry baseHass entryC2zero 0
      false).commands = [] :=
  C2_flags_off_no_transition_no_commands baseHass entryC2zero 0 false rfl rfl
    (by norm_num [entryC2zero, baseEntry])

/-- C1 counterexample: with bedtime off, brightness updates on and the
brightness range 0-25, the curve value 0.5 yields the commanded brightness
12.5 — a non-integer, unequal to its own rounding — so the claim that the
placed value is rounded to an integer percent fails. -/
theorem C1_brightness_not_integer_counterexample :
    (LightControl.async_update_lights_for_entry baseHass entryC1 64800
      false).commands = [⟨lightA, some 12.5, none, none⟩] ∧
    ((pythonRound (12.5:ℝ) : ℤ) : ℝ) ≠ 12.5 := by
  refine ⟨updateC1_commands, ?_⟩
  rw [pythonRound_twelve_half]
  norm_num

/-- C1 amended: with bedtime off and brightness updates on, the brightness
value placed in every dispatched command equals
`RangeMapper(shaped, effective min_brightness, effective max_brightness)`
clamped to [0,100], with no rounding — it may be a non-integer percent. -/
theorem C1_brightness_clamped_unrounded
    (hass : LightControl.Hass) (s : LightControl.EntryData) (now : ℝ)
    (force : Bool) (hb : s.brightness_enabled = true)
    (hbed : s.bedtime = false) (sd : LightControl.ServiceData)
    (hmem : sd ∈ (LightControl.async_update_lights_for_entry hass s now
      force).commands) :
    sd.brightness_pct = some (max 0 (min 100 (SolarCurve.map_pct_to_range
      (SolarCurve.apply_shaping (SolarCurve.daily_cosine_pct hass.cycle now)
        s.shaping_function s.shaping_param)
      (LightControl.effective_min_brightness s sd.entity_id)
      (LightControl.effective_max_brightness s sd.entity_id)))) := by
  obtain ⟨light_id, -, -, rfl⟩ :=
    LightControl.command_mem_inv hass s now force sd hmem
  rw [LightControl.light_service_data_entity_id]
  unfold LightControl.light_service_data
  rw [hb, hbed]
  simp

/-- C1 witness: the amended theorem at the concrete fixture (range 0-25,
curve value 0.5, command brightness 12.5). -/
theorem C1_brightness_clamped_unrounded_witness :
    ((⟨lightA, some 12.5, none, none⟩ :
        LightControl.ServiceData)).brightness_pct
      = some (max 0 (min 100 (SolarCurve.map_pct_to_range
        (SolarCurve.apply_shaping
          (SolarCurve.daily_cosine_pct baseHass.cycle 64800)
          entryC1.shaping_function entryC1.shaping_param)
        (LightControl.effective_min_brightness entryC1 lightA)
        (LightControl.effective_max_brightness entryC1 lightA)))) :=
  C1_brightness_clamped_unrounded baseHass entryC1 64800 false rfl rfl
    ⟨lightA, some 12.5, none, none⟩
    (by rw [updateC1_commands]; exact List.mem_singleton.mpr rfl)

/-- C7 counterexample: with bedtime on and effective min_brightness 10.25,
the commanded brightness is 10 (the minimum rounded to an integer and
clamped), not the effective min_brightness itself — so the claim that the
brightness target equals the effective min_brightness fails for non-integer
minima. -/
theorem C7_bedtime_brightness_rounded_counterexample :
    entryC7.bedtime = true ∧
    LightControl.effective_min_brightness entryC7 lightA = 10.25 ∧
    (LightControl.async_update_lights_for_entry baseHass entryC7 0
      true).commands = [⟨lightA, some 10, some 400, none⟩] ∧
    (10:ℝ) ≠ 10.25 := by
  refine ⟨rfl, ?_, updateC7_commands, by norm_num⟩
  norm_num [LightControl.effective_min_brightness, entryC7, baseEntry,
    noOverrides]

/-- C7 amended: with bedtime on, every dispatched command pins its targets
to the configured minima regardless of the computed curve value: the
brightness target is the effective min_brightness rounded to an integer
(ties to even) and clamped to [0,100] — exactly 10 when min_brightness is
10 — and the Kelvin value fed to the mired conversion is the effective
min_kelvin (the command carries round(1e6 / min_kelvin) when it is
positive). -/
theorem C7_bedtime_pins_rounded_minimum
    (hass : LightControl.Hass) (s : LightControl.EntryData) (now : ℝ)
    (force : Bool) (hbed : s.bedtime = true)
    (sd : LightControl.ServiceData)
    (hmem : sd ∈ (LightControl.async_update_lights_for_entry hass s now
      force).commands) :
    (s.brightness_enabled = true →
      sd.brightness_pct = some (((max 0 (min 100 (pythonRound
        (LightControl.effective_min_brightness s sd.entity_id))) : ℤ) : ℝ))) ∧
    (s.color_temp_enabled = true →
      sd.color_temp =
        (if LightControl.effective_min_kelvin s sd.entity_id > 0
          then some (pythonRound
            (1000000 / LightControl.effective_min_kelvin s sd.entity_id))
          else none)) := by
  obtain ⟨light_id, -, -, rfl⟩ :=
    LightControl.command_mem_inv hass s now force sd hmem
  rw [LightControl.light_service_data_entity_id]
  constructor
  · intro hb
    unfold LightControl.light_service_data
    rw [hb, hbed]
    simp
  · intro hc
    unfold LightControl.light_service_data
    rw [hc, hbed]
    simp

/-- C7 witness: the amended theorem at the concrete fixture — brightness
pinned to 10 (rounded from 10.25), mired 400 derived from min_kelvin 2500. -/
theorem C7_bedtime_pins_rounded_minimum_witness :
    ((⟨lightA, some 10, some 400, none⟩ :
        LightControl.ServiceData)).brightness_pct
      = some (((max 0 (min 100 (pythonRound
          (LightControl.effective_min_brightness entryC7 lightA))) : ℤ) : ℝ)) ∧
    ((⟨lightA, some 10, some 400, none⟩ :
        LightControl.ServiceData)).color_temp
      = (if LightControl.effective_min_kelvin entryC7 lightA > 0
          then some (pythonRound
            (1000000 / LightControl.effective_min_kelvin entryC7 lightA))
          else none) := by
  have h := C7_bedtime_pins_rounded_minimum baseHass entryC7 0 true rfl
    ⟨lightA, some 10, some 400, none⟩
    (by rw [updateC7_commands]; exact List.mem_singleton.mpr rfl)
  exact ⟨h.1 rfl, h.2 rfl⟩
